import Mathlib

/-!
Verification development for the jayarama-associates careers module.

The definitions below are a shallow embedding of the Python/Django source:
`careers/models.py`, `careers/views.py`, `careers/forms.py`, `careers/admin.py`
and `jayarama_associates/settings.py`.  Timestamps are modelled as `Int`,
enum-like Django `CharField`s as `String` (faithful to the source, which
stores plain strings), nullable columns as `Option`, and the relational
store as explicit lists threaded through the operations.  The database
`NOT NULL` constraint on `ApplicationEventLog.application` and the
`unique_together ("email", "job")` constraint on `JobApplication` are
modelled explicitly, since several handlers hit them.
-/

/-- Job posting record: the fields of `careers.models.JobOpening` used by the
embedded operations (`models.py`). -/
structure JobOpening where
  id : Nat
  title : String
  short_description : String
  detailed_description : String
  required_skills : String
  tools_technologies : String
  location : String
  job_type : String
  experience_level : String
  job_category : Nat
  salary_range_min : Option Int
  salary_range_max : Option Int
  status : String
  is_featured : Bool
  is_remote_allowed : Bool
  application_deadline : Option Int
  vacancy_count : Nat
  published_date : Option Int
  posted_date : Int
  created_at : Int
deriving DecidableEq, Repr

/-- Candidate application record: the fields of `careers.models.JobApplication`
used by the embedded operations. -/
structure JobApplication where
  id : Nat
  job : Nat
  email : String
  status : String
  status_notes : String
  status_changed_at : Int
  created_at : Int
deriving DecidableEq, Repr

/-- Event-log record (`careers.models.ApplicationEventLog`).  The `application`
field carries the foreign-key value passed by the caller; the column itself is
declared without `null=True`, i.e. it is non-nullable at the store level. -/
structure ApplicationEventLog where
  id : Nat
  application : Option Nat
  event_type : String
  description : String
  created_at : Int
deriving DecidableEq, Repr

/-- Job-alert subscription record (`careers.models.JobAlertSubscription`);
`confirmation_token` (a UUID in the source) is modelled as a `Nat`. -/
structure JobAlertSubscription where
  id : Nat
  email : String
  is_confirmed : Bool
  confirmation_token : Nat
  is_active : Bool
deriving DecidableEq, Repr

/-- The mutable backing store for applications and event logs. -/
structure Store where
  applications : List JobApplication
  event_logs : List ApplicationEventLog
  next_app_id : Nat
  next_log_id : Nat
deriving DecidableEq, Repr

/-- `JobOpening.is_active` (`models.py` lines 214-222): open status, deadline
(when present) not already passed, and a positive vacancy count. -/
def JobOpening.is_active (j : JobOpening) (now : Int) : Bool :=
  if j.status ≠ "open" then false
  else if (match j.application_deadline with
           | some d => decide (d < now)
           | none => false) then false
  else if j.vacancy_count ≤ 0 then false
  else true

/-- `JobApplication.update_status` (`models.py` lines 416-420): set the status
and notes and stamp `status_changed_at` with the current time.  The method
saves only these three fields and touches nothing else. -/
def JobApplication.update_status (a : JobApplication) (new_status notes : String)
    (now : Int) : JobApplication :=
  { a with status := new_status, status_notes := notes, status_changed_at := now }

/-- Store-level view of `update_status` applied to the application with the
given id: only the application row changes; no event-log row is written. -/
def Store.update_status (s : Store) (appId : Nat) (new_status notes : String)
    (now : Int) : Store :=
  { s with applications :=
      s.applications.map (fun a =>
        if a.id == appId then a.update_status new_status notes now else a) }

/-- Admin bulk action `JobApplicationAdmin.mark_as_shortlisted` (`admin.py`
lines 602-605): `queryset.update(status="shortlisted")` writes the status
column only, bypassing `save` and the event log. -/
def Store.mark_as_shortlisted (s : Store) (selected : List Nat) : Store :=
  { s with applications :=
      s.applications.map (fun a =>
        if selected.contains a.id then { a with status := "shortlisted" } else a) }

/-- Admin bulk action `JobApplicationAdmin.mark_as_rejected` (`admin.py`
lines 607-610): `queryset.update(status="rejected")`. -/
def Store.mark_as_rejected (s : Store) (selected : List Nat) : Store :=
  { s with applications :=
      s.applications.map (fun a =>
        if selected.contains a.id then { a with status := "rejected" } else a) }

/-- Number of event-log rows of kind `status_change` owned by an application. -/
def Store.countStatusChange (s : Store) (appId : Nat) : Nat :=
  (s.event_logs.filter (fun e =>
    e.application == some appId && e.event_type == "status_change")).length

/-- Inserting an event-log row (`ApplicationEventLog.objects.create`): the
`application` column is non-nullable, so an insert that carries no owning
application fails with an integrity error. -/
def createEventLog (s : Store) (application : Option Nat) (etype desc : String)
    (now : Int) : Except Unit Store :=
  match application with
  | none => .error ()
  | some i =>
      .ok { s with
              event_logs := s.event_logs ++
                [⟨s.next_log_id, some i, etype, desc, now⟩],
              next_log_id := s.next_log_id + 1 }

/-- Best-effort event-log insert as the views perform it: the create is wrapped
in a broad `try`/`except` that logs and swallows any failure. -/
def tryCreateEventLog (s : Store) (application : Option Nat) (etype desc : String)
    (now : Int) : Store :=
  match createEventLog s application etype desc now with
  | .ok s2 => s2
  | .error _ => s

/-! ### Search/filter engine (`JobListView.get_queryset`, `views.py` 236-320) -/

/-- ASCII lowercasing (Python `str.lower` on the ASCII range), computed on
the character list so that it evaluates by kernel reduction. -/
def pyLower (s : String) : String :=
  ⟨s.data.map Char.toLower⟩

/-- Case-insensitive substring test, modelling Django `__icontains`. -/
def icontains (hay needle : String) : Bool :=
  decide ((pyLower needle).data <:+: (pyLower hay).data)

/-- Django `field__lte=b` on a nullable column: NULL rows never match. -/
def optLe (o : Option Int) (b : Int) : Bool :=
  match o with
  | some v => decide (v ≤ b)
  | none => false

/-- Django `field__gte=b` on a nullable column: NULL rows never match. -/
def optGe (o : Option Int) (b : Int) : Bool :=
  match o with
  | some v => decide (b ≤ v)
  | none => false

/-- The cleaned filter set of `JobSearchFilterForm` as `get_queryset` reads it;
`none`/`[]`/`false` are the falsy values on which the view skips the filter. -/
structure Filters where
  keyword : Option String
  location : Option String
  job_types : List String
  experience_levels : List String
  categories : List Nat
  salary_range : Option String
  posted_within : Option Nat
  remote_only : Bool
  featured_only : Bool
deriving DecidableEq, Repr

/-- The filter set produced by a request with no search parameters. -/
def emptyFilters : Filters :=
  ⟨none, none, [], [], [], none, none, false, false⟩

/-- Apply an optional predicate: `none` imposes no constraint. -/
def matchFilter (p : Option (JobOpening → Bool)) (l : List JobOpening) :
    List JobOpening :=
  match p with
  | none => l
  | some q => l.filter q

/-- Base visibility filter: `status="open"` plus `published_date__lte=now`.
The `__lte` lookup excludes rows whose `published_date` is NULL. -/
def baseVisible (now : Int) (j : JobOpening) : Bool :=
  j.status == "open" &&
    (match j.published_date with
     | some p => decide (p ≤ now)
     | none => false)

/-- Keyword predicate: case-insensitive containment in title, descriptions, or
the serialized skill/tool JSON columns. -/
def keywordPred (kw : String) (j : JobOpening) : Bool :=
  icontains j.title kw || icontains j.short_description kw ||
    icontains j.detailed_description kw || icontains j.required_skills kw ||
    icontains j.tools_technologies kw

def applyKeyword (k : Option String) (l : List JobOpening) : List JobOpening :=
  matchFilter (k.map keywordPred) l

/-- Location predicate: a location containing "remote" switches to the
remote-allowed flag, otherwise substring match on the location column. -/
def locationPred (loc : String) (j : JobOpening) : Bool :=
  if icontains loc "remote" then j.is_remote_allowed
  else icontains j.location loc

def applyLocation (loc : Option String) (l : List JobOpening) :
    List JobOpening :=
  matchFilter (loc.map locationPred) l

/-- Set-membership filter, skipped when the selected set is empty. -/
def listPred (field : JobOpening → String) (choices : List String) :
    Option (JobOpening → Bool) :=
  match choices with
  | [] => none
  | cs => some (fun j => cs.contains (field j))

def applyJobTypes (ts : List String) (l : List JobOpening) : List JobOpening :=
  matchFilter (listPred (·.job_type) ts) l

def applyExperienceLevels (es : List String) (l : List JobOpening) :
    List JobOpening :=
  matchFilter (listPred (·.experience_level) es) l

def categoriesPred (cs : List Nat) : Option (JobOpening → Bool) :=
  match cs with
  | [] => none
  | cs => some (fun j => cs.contains j.job_category)

def applyCategories (cs : List Nat) (l : List JobOpening) : List JobOpening :=
  matchFilter (categoriesPred cs) l

/-- Salary brackets: the fixed tags of the view's if/elif chain; an unknown
tag imposes no constraint. -/
def salaryPred (s : String) : Option (JobOpening → Bool) :=
  if s = "0-300000" then some (fun j => optLe j.salary_range_max 300000)
  else if s = "300000-600000" then
    some (fun j => optGe j.salary_range_min 300000 && optLe j.salary_range_max 600000)
  else if s = "600000-1200000" then
    some (fun j => optGe j.salary_range_min 600000 && optLe j.salary_range_max 1200000)
  else if s = "1200000-2400000" then
    some (fun j => optGe j.salary_range_min 1200000 && optLe j.salary_range_max 2400000)
  else if s = "2400000+" then some (fun j => optGe j.salary_range_min 2400000)
  else none

def applySalaryRange (r : Option String) (l : List JobOpening) :
    List JobOpening :=
  matchFilter (r.bind salaryPred) l

/-- Recency: `posted_date__gte = now - days` (the model has `posted_date`,
which is non-nullable, so the first branch of the view is taken). -/
def postedWithinPred (now : Int) (days : Nat) (j : JobOpening) : Bool :=
  decide (now - (days : Int) ≤ j.posted_date)

def applyPostedWithin (now : Int) (d : Option Nat) (l : List JobOpening) :
    List JobOpening :=
  matchFilter (d.map (postedWithinPred now)) l

def boolPred (b : Bool) (p : JobOpening → Bool) : Option (JobOpening → Bool) :=
  if b then some p else none

def applyRemoteOnly (b : Bool) (l : List JobOpening) : List JobOpening :=
  matchFilter (boolPred b (·.is_remote_allowed)) l

def applyFeaturedOnly (b : Bool) (l : List JobOpening) : List JobOpening :=
  matchFilter (boolPred b (·.is_featured)) l

/-- The queryset built by `JobListView.get_queryset` before ordering: the base
visibility filter followed by the optional predicates, in the order the view
applies them. -/
def filterJobs (now : Int) (f : Filters) (jobs : List JobOpening) :
    List JobOpening :=
  applyFeaturedOnly f.featured_only
    (applyRemoteOnly f.remote_only
      (applyPostedWithin now f.posted_within
        (applySalaryRange f.salary_range
          (applyCategories f.categories
            (applyExperienceLevels f.experience_levels
              (applyJobTypes f.job_types
                (applyLocation f.location
                  (applyKeyword f.keyword
                    (jobs.filter (baseVisible now))))))))))

/-! ### Ordering and pagination (`views.py` 101-110, 229-234, 304-318) -/

/-- The concrete fields of the `JobOpening` model, as probed by
`model_has_field`. -/
def jobOpeningFieldNames : List String :=
  ["id", "title", "slug", "reference_id", "job_category", "job_type",
   "experience_level", "location", "department", "team",
   "salary_range_min", "salary_range_max", "salary_currency", "salary_period",
   "is_salary_negotiable", "show_salary", "benefits",
   "short_description", "detailed_description", "key_responsibilities",
   "qualifications", "required_skills", "preferred_skills",
   "tools_technologies", "application_deadline", "vacancy_count",
   "estimated_duration", "status", "priority", "is_featured",
   "is_remote_allowed", "requires_travel", "travel_percentage",
   "views_count", "applications_count", "shortlisted_count",
   "conversion_rate", "posted_date", "published_date", "closed_date",
   "meta_title", "meta_description", "og_image", "share_count",
   "hiring_manager", "recruiter", "approver", "created_at", "updated_at"]

/-- `model_has_field` helper (`views.py` 55-61). -/
def model_has_field (fields : List String) (name : String) : Bool :=
  fields.contains name

/-- `first_existing_field` helper (`views.py` 63-71). -/
def first_existing_field (fields : List String) (preferred : List String) :
    Option String :=
  preferred.find? (fields.contains ·)

/-- `safe_order_field` helper (`views.py` 73-76). -/
def safe_order_field (fields : List String) (preferred : List String)
    (fallback : String) : String :=
  (first_existing_field fields preferred).getD fallback

/-- `JOB_DATE_PREFS` (`views.py` line 102). -/
def JOB_DATE_PREFS : List String :=
  ["created_at", "posted_date", "published_date", "created", "timestamp"]

/-- The `paginate_by` attribute of `JobListView` (`views.py` line 234). -/
def JobListView_paginate_by : Nat := 12

/-- The `order_by` argument list chosen by `get_queryset` for each sort key
(`views.py` 304-318); the backing store receives exactly these columns and no
secondary tiebreaker. -/
def orderByArgs (sort_by : String) (keyword : String) : List String :=
  if sort_by = "newest" then
    ["-" ++ safe_order_field jobOpeningFieldNames JOB_DATE_PREFS "id"]
  else if sort_by = "salary_high" then
    ["-salary_range_max", "-salary_range_min"]
  else if sort_by = "salary_low" then
    ["salary_range_min", "salary_range_max"]
  else if sort_by = "deadline" &&
      model_has_field jobOpeningFieldNames "application_deadline" then
    ["application_deadline"]
  else if sort_by = "relevance" && !keyword.isEmpty then
    ["-relevance", "-" ++ safe_order_field jobOpeningFieldNames JOB_DATE_PREFS "id"]
  else
    ["-" ++ safe_order_field jobOpeningFieldNames JOB_DATE_PREFS "id"]

/-- The sortable value a posting exposes for one ascending `order_by` column;
the `relevance` column is the annotation counting a title keyword match. -/
def sortFieldValue (keyword : String) (j : JobOpening) (field : String) :
    Option Int :=
  if field = "created_at" then some j.created_at
  else if field = "posted_date" then some j.posted_date
  else if field = "published_date" then j.published_date
  else if field = "salary_range_min" then j.salary_range_min
  else if field = "salary_range_max" then j.salary_range_max
  else if field = "application_deadline" then j.application_deadline
  else if field = "relevance" then some (if icontains j.title keyword then 1 else 0)
  else if field = "id" then some (j.id : Int)
  else none

/-- The sortable value for one `order_by` argument: a leading minus means
descending, represented by negating the value. -/
def sortKeyValue (keyword : String) (j : JobOpening) (arg : String) :
    Option Int :=
  match arg.data with
  | List.cons c rest =>
      if c = '-' then (sortFieldValue keyword j ⟨rest⟩).map (fun x => -x)
      else sortFieldValue keyword j arg
  | List.nil => sortFieldValue keyword j arg

/-- The full ORDER BY key tuple of a posting under a sort choice. -/
def keyTuple (sort_by : String) (keyword : String) (j : JobOpening) :
    List (Option Int) :=
  (orderByArgs sort_by keyword).map (sortKeyValue keyword j)

/-- Boolean comparison realising `order_by("-created_at")`, the default
(newest-first) ordering. -/
def newestLe (a b : JobOpening) : Bool :=
  decide (b.created_at ≤ a.created_at)

/-- The default search result: the filtered queryset in newest-first order. -/
def searchNewest (now : Int) (f : Filters) (jobs : List JobOpening) :
    List JobOpening :=
  (filterJobs now f jobs).mergeSort newestLe

/-! ### Application intake (`views.py` 441-547, 773-801; `forms.py` 296-312) -/

/-- `AdvancedJobApplicationForm.clean_email` (`forms.py` 296-312): when the
form instance has a job bound, reject an email that already applied to that
job (case-insensitively); always lowercase the accepted email.  On the create
view the form is built without an instance job (`CreateView` passes
`instance=None` and the view assigns `application.job` only after
validation), so the callers below pass `none` here. -/
def AdvancedForm_clean_email (instance_job : Option Nat)
    (apps : List JobApplication) (email : String) : Except String String :=
  if (match instance_job with
      | some j => apps.any (fun a => a.job == j && pyLower a.email == pyLower email)
      | none => false) then
    .error "You have already applied for this position with this email address."
  else
    .ok (pyLower email)

/-- The reasons `JobApplicationCreateView.dispatch` (`views.py` 447-469)
rejects a submission before intake. -/
inductive IntakeReject
  | notFound
  | notPublished
  | deadlinePassed
  | noVacancy
deriving DecidableEq, Repr

/-- `JobApplicationCreateView.dispatch`: `get_object_or_404(pk, status="open")`
then the published/deadline/vacancy precondition checks, in source order. -/
def createViewDispatch (jobs : List JobOpening) (jobId : Nat) (now : Int) :
    Except IntakeReject JobOpening :=
  match jobs.find? (fun j => j.id == jobId && j.status == "open") with
  | none => .error .notFound
  | some job =>
      if (match job.published_date with
          | some p => decide (now < p)
          | none => false) then .error .notPublished
      else if (match job.application_deadline with
               | some d => decide (d < now)
               | none => false) then .error .deadlinePassed
      else if job.vacancy_count ≤ 0 then .error .noVacancy
      else .ok job

/-- Outcome of a full-form submission through `JobApplicationCreateView`. -/
inductive FullApplyResult
  | rejected (reason : IntakeReject) (s : Store)
  | validationError (msg : String) (s : Store)
  | serverError (s : Store)
  | success (s : Store) (newId : Nat)
deriving DecidableEq, Repr

/-- The full-form submission pipeline (`JobApplicationCreateView`): dispatch
preconditions, then form validation (with no job bound to the form instance),
then `application.save()` — where the `unique_together ("email", "job")`
constraint raises an uncaught integrity error on an exact duplicate — then the
best-effort `status_change` event-log append describing the submission. -/
def jobApplicationCreateView (jobs : List JobOpening) (s : Store)
    (jobId : Nat) (email : String) (now : Int) : FullApplyResult :=
  match createViewDispatch jobs jobId now with
  | .error r => .rejected r s
  | .ok job =>
      match AdvancedForm_clean_email none s.applications email with
      | .error m => .validationError m s
      | .ok emailLower =>
          if s.applications.any (fun a => a.job == job.id && a.email == emailLower) then
            .serverError s
          else
            let app : JobApplication :=
              ⟨s.next_app_id, job.id, emailLower, "applied", "", now, now⟩
            let s1 : Store :=
              { s with applications := s.applications ++ [app],
                       next_app_id := s.next_app_id + 1 }
            let s2 := tryCreateEventLog s1 (some app.id) "status_change"
              ("Application submitted for " ++ job.title) now
            .success s2 app.id

/-- Outcome of a submission through `QuickApplyView.post`. -/
inductive QuickApplyResult
  | notFound (s : Store)
  | serverError (s : Store)
  | success (s : Store) (newId : Nat)
deriving DecidableEq, Repr

/-- `QuickApplyView.post` (`views.py` 774-801): only
`get_object_or_404(pk, status="open")` guards the intake — no published-date,
deadline, or vacancy check, and `QuickApplyForm` performs no duplicate check
and no lowercasing, so the application is saved directly (the DB unique
constraint on the exact (email, job) pair is the only remaining barrier). -/
def quickApplyView (jobs : List JobOpening) (s : Store) (jobId : Nat)
    (email : String) (now : Int) : QuickApplyResult :=
  match jobs.find? (fun j => j.id == jobId && j.status == "open") with
  | none => .notFound s
  | some job =>
      if s.applications.any (fun a => a.job == job.id && a.email == email) then
        .serverError s
      else
        let app : JobApplication :=
          ⟨s.next_app_id, job.id, email, "applied", "", now, now⟩
        .success { s with applications := s.applications ++ [app],
                          next_app_id := s.next_app_id + 1 } app.id

/-! ### Job-alert confirmation (`views.py` 758-770) -/

/-- A minimal HTTP response: status code and body. -/
structure HttpResp where
  status : Nat
  body : String
deriving DecidableEq, Repr

/-- `confirm_alert_subscription`: `get_object_or_404` filtered on both the
token and `is_confirmed=False` — a match flips the flag and redirects home, no
match (including an already-confirmed subscription) raises a generic 404. -/
def confirm_alert_subscription (subs : List JobAlertSubscription)
    (token : Nat) : HttpResp × List JobAlertSubscription :=
  match subs.find? (fun t => t.confirmation_token == token && t.is_confirmed == false) with
  | none => (⟨404, ""⟩, subs)
  | some s =>
      (⟨302, ""⟩,
       subs.map (fun t => if t.id == s.id then { t with is_confirmed := true } else t))

/-! ### Inbound webhooks (`views.py` 1029-1116; `settings.py`) -/

/-- Python truthiness of an optional string: `None` and `""` are falsy. -/
def pyTruthy (o : Option String) : Bool :=
  match o with
  | none => false
  | some s => !s.isEmpty

/-- Python `a or b` on optional strings. -/
def pyOr (a b : Option String) : Option String :=
  if pyTruthy a then a else b

/-- The body of a webhook POST as seen after `json.loads`: empty, invalid
JSON, or a JSON object carrying the given top-level keys. -/
inductive ParsedBody
  | empty
  | malformed
  | json (keys : List String)
deriving DecidableEq, Repr

/-- HTTP method of an inbound webhook request. -/
inductive HttpMethod
  | GET
  | POST
  | other
deriving DecidableEq, Repr

/-- `settings.py` defines no `LINKEDIN_WEBHOOK_SECRET`, so
`getattr(settings, "LINKEDIN_WEBHOOK_SECRET", None)` yields `None`. -/
def LINKEDIN_WEBHOOK_SECRET : Option String := none

/-- `linkedin_webhook` GET branch (`views.py` 1031-1035): echo a truthy
`challenge`/`hub.challenge` parameter, else answer "OK". -/
def linkedin_webhook_GET (challenge hub : Option String) : HttpResp :=
  let c := pyOr challenge hub
  if pyTruthy c then ⟨200, c.getD ""⟩ else ⟨200, "OK"⟩

/-- `linkedin_webhook` POST branch (`views.py` 1037-1061).  Signature
verification runs only when both a secret is configured and a signature
header is present (`sigMatches` stands for the external
`hmac.compare_digest` result).  A body that fails `json.loads` is replaced by
an empty payload.  The event-log append passes no owning application, so the
insert violates the non-nullable `application` column and the failure is
swallowed. -/
def linkedin_webhook_POST (secret sig : Option String) (sigMatches : Bool)
    (body : ParsedBody) (s : Store) (now : Int) : HttpResp × Store :=
  if pyTruthy secret && pyTruthy sig then
    if !sigMatches then (⟨403, ""⟩, s)
    else
      let keys := match body with
        | .json ks => ks
        | _ => []
      (⟨200, "Received"⟩,
       tryCreateEventLog s none "linkedin_webhook"
         ("LinkedIn webhook received: keys=" ++ String.intercalate ", " keys) now)
  else
    let keys := match body with
      | .json ks => ks
      | _ => []
    (⟨200, "Received"⟩,
     tryCreateEventLog s none "linkedin_webhook"
       ("LinkedIn webhook received: keys=" ++ String.intercalate ", " keys) now)

/-- `indeed_webhook` (`views.py` 1064-1081): decorated with `require_POST`, so
any other method is answered 405; an empty or unparseable body is a 400; a
valid body is logged best-effort (the append again carries no owning
application and fails silently) and answered with a JSON ok. -/
def indeed_webhook (method : HttpMethod) (_challenge _hub : Option String)
    (body : ParsedBody) (s : Store) (now : Int) : HttpResp × Store :=
  match method with
  | .POST =>
      match body with
      | .empty => (⟨400, "Empty body"⟩, s)
      | .malformed => (⟨400, "Invalid JSON"⟩, s)
      | .json _ =>
          (⟨200, "\x7b\"status\": \"ok\"\x7d"⟩,
           tryCreateEventLog s none "indeed_webhook" "Indeed webhook" now)
  | _ => (⟨405, ""⟩, s)

/-- `calendar_webhook` GET branch (`views.py` 1086-1091). -/
def calendar_webhook_GET (challenge hub : Option String) : HttpResp :=
  let c := pyOr challenge hub
  if pyTruthy c then ⟨200, c.getD ""⟩
  else ⟨200, "\x7b\"status\": \"ok\", \"method\": \"GET\"\x7d"⟩

/-- `calendar_webhook` POST branch (`views.py` 1093-1116): empty body and
invalid JSON are 400s; a valid body is logged best-effort (the append carries
no owning application and fails silently) and acknowledged. -/
def calendar_webhook_POST (body : ParsedBody) (s : Store) (now : Int) :
    HttpResp × Store :=
  match body with
  | .empty => (⟨400, "Empty body"⟩, s)
  | .malformed => (⟨400, "Invalid JSON"⟩, s)
  | .json _ =>
      (⟨200, "\x7b\"status\": \"received\"\x7d"⟩,
       tryCreateEventLog s none "calendar_webhook" "Calendar webhook" now)

/-! ### Concrete sample data used by the theorems below -/

/-- A representative open posting, published at time 0. -/
def sampleJob : JobOpening :=
  ⟨1, "Engineer", "short text", "long text", "[]", "[]", "Hyderabad",
   "full_time", "mid", 1, none, none, "open", false, false, none, 1,
   some 0, 0, 0⟩

/-- An open posting whose `published_date` is NULL. -/
def unpublishedOpenJob : JobOpening :=
  { sampleJob with id := 2, published_date := none }

/-- Two distinct postings sharing every sortable field value. -/
def jobAlpha : JobOpening :=
  { sampleJob with id := 3, title := "Alpha", created_at := 7 }

def jobBeta : JobOpening :=
  { sampleJob with id := 4, title := "Beta", created_at := 7 }

/-- An open posting whose deadline has passed (at `now = 5`) and whose
vacancy count is zero. -/
def expiredOpenJob : JobOpening :=
  { sampleJob with id := 7, application_deadline := some 1, vacancy_count := 0 }

/-- An empty store. -/
def emptyStore : Store := ⟨[], [], 1, 1⟩

/-- A store holding one application from `a@x.com` for job 1. -/
def storeOneApp : Store :=
  ⟨[⟨1, 1, "a@x.com", "applied", "", 0, 0⟩], [], 2, 1⟩

/-- One unconfirmed, active subscription with confirmation token 7. -/
def subsOne : List JobAlertSubscription :=
  [⟨1, "a@x.com", false, 7, true⟩]

/-- Modelled from the spec (testable property 4): the result claimed for a
search with an empty filter set — "all open, published postings", where the
spec's base visibility predicate admits postings whose publish timestamp is
absent.  Kept for comparison against `filterJobs`, which is translated from
the view code. -/
def specEmptyFilterResult (now : Int) (jobs : List JobOpening) :
    List JobOpening :=
  jobs.filter (fun j =>
    j.status == "open" &&
      (match j.published_date with
       | some p => decide (p ≤ now)
       | none => true))

/-- `f2` extends `f` by switching on exactly one of the nine optional filter
predicates of the search form. -/
def AddsOnePredicate (f f2 : Filters) : Prop :=
  (∃ k, f.keyword = none ∧ f2 = { f with keyword := some k }) ∨
  (∃ loc, f.location = none ∧ f2 = { f with location := some loc }) ∨
  (∃ ts, f.job_types = [] ∧ f2 = { f with job_types := ts }) ∨
  (∃ es, f.experience_levels = [] ∧ f2 = { f with experience_levels := es }) ∨
  (∃ cs, f.categories = [] ∧ f2 = { f with categories := cs }) ∨
  (∃ r, f.salary_range = none ∧ f2 = { f with salary_range := some r }) ∨
  (∃ d, f.posted_within = none ∧ f2 = { f with posted_within := some d }) ∨
  (f.remote_only = false ∧ f2 = { f with remote_only := true }) ∨
  (f.featured_only = false ∧ f2 = { f with featured_only := true })

/-! ### Helper lemmas -/

theorem matchFilter_sublist (p : Option (JobOpening → Bool))
    (l : List JobOpening) : List.Sublist (matchFilter p l) l := by
  cases p with
  | none => exact List.Sublist.refl l
  | some q => exact List.filter_sublist l

theorem matchFilter_mono (p : Option (JobOpening → Bool))
    {l1 l2 : List JobOpening} (h : List.Sublist l1 l2) :
    List.Sublist (matchFilter p l1) (matchFilter p l2) := by
  cases p with
  | none => exact h
  | some q => exact h.filter q

theorem matchFilter_refine {p2 p : Option (JobOpening → Bool)}
    {l1 l2 : List JobOpening} (hp : p2 = p ∨ p = none) (h : List.Sublist l1 l2) :
    List.Sublist (matchFilter p2 l1) (matchFilter p l2) := by
  rcases hp with rfl | rfl
  · exact matchFilter_mono p2 h
  · exact (matchFilter_sublist p2 l1).trans h

/-- If every optional predicate of `f2` is either the same as in `f` or newly
switched on where `f` had none, the `f2`-filtered queryset is a sublist of the
`f`-filtered one. -/
theorem filterJobs_refines (now : Int) (f f2 : Filters)
    (hk : f2.keyword = f.keyword ∨ f.keyword = none)
    (hl : f2.location = f.location ∨ f.location = none)
    (ht : f2.job_types = f.job_types ∨ f.job_types = [])
    (he : f2.experience_levels = f.experience_levels ∨ f.experience_levels = [])
    (hc : f2.categories = f.categories ∨ f.categories = [])
    (hs : f2.salary_range = f.salary_range ∨ f.salary_range = none)
    (hp : f2.posted_within = f.posted_within ∨ f.posted_within = none)
    (hr : f2.remote_only = f.remote_only ∨ f.remote_only = false)
    (hb : f2.featured_only = f.featured_only ∨ f.featured_only = false)
    (jobs : List JobOpening) :
    List.Sublist (filterJobs now f2 jobs) (filterJobs now f jobs) := by
  have Hk : f2.keyword.map keywordPred = f.keyword.map keywordPred ∨
      f.keyword.map keywordPred = none := by
    rcases hk with h | h
    · exact Or.inl (by rw [h])
    · exact Or.inr (by rw [h]; rfl)
  have Hl : f2.location.map locationPred = f.location.map locationPred ∨
      f.location.map locationPred = none := by
    rcases hl with h | h
    · exact Or.inl (by rw [h])
    · exact Or.inr (by rw [h]; rfl)
  have Ht : listPred (·.job_type) f2.job_types = listPred (·.job_type) f.job_types ∨
      listPred (·.job_type) f.job_types = none := by
    rcases ht with h | h
    · exact Or.inl (by rw [h])
    · exact Or.inr (by rw [h]; rfl)
  have He : listPred (·.experience_level) f2.experience_levels =
      listPred (·.experience_level) f.experience_levels ∨
      listPred (·.experience_level) f.experience_levels = none := by
    rcases he with h | h
    · exact Or.inl (by rw [h])
    · exact Or.inr (by rw [h]; rfl)
  have Hc : categoriesPred f2.categories = categoriesPred f.categories ∨
      categoriesPred f.categories = none := by
    rcases hc with h | h
    · exact Or.inl (by rw [h])
    · exact Or.inr (by rw [h]; rfl)
  have Hs : f2.salary_range.bind salaryPred = f.salary_range.bind salaryPred ∨
      f.salary_range.bind salaryPred = none := by
    rcases hs with h | h
    · exact Or.inl (by rw [h])
    · exact Or.inr (by rw [h]; rfl)
  have Hp : f2.posted_within.map (postedWithinPred now) =
      f.posted_within.map (postedWithinPred now) ∨
      f.posted_within.map (postedWithinPred now) = none := by
    rcases hp with h | h
    · exact Or.inl (by rw [h])
    · exact Or.inr (by rw [h]; rfl)
  have Hr : boolPred f2.remote_only (·.is_remote_allowed) =
      boolPred f.remote_only (·.is_remote_allowed) ∨
      boolPred f.remote_only (·.is_remote_allowed) = none := by
    rcases hr with h | h
    · exact Or.inl (by rw [h])
    · exact Or.inr (by rw [h]; rfl)
  have Hb : boolPred f2.featured_only (·.is_featured) =
      boolPred f.featured_only (·.is_featured) ∨
      boolPred f.featured_only (·.is_featured) = none := by
    rcases hb with h | h
    · exact Or.inl (by rw [h])
    · exact Or.inr (by rw [h]; rfl)
  unfold filterJobs applyFeaturedOnly applyRemoteOnly applyPostedWithin
    applySalaryRange applyCategories applyExperienceLevels applyJobTypes
    applyLocation applyKeyword
  exact matchFilter_refine Hb (matchFilter_refine Hr (matchFilter_refine Hp
    (matchFilter_refine Hs (matchFilter_refine Hc (matchFilter_refine He
      (matchFilter_refine Ht (matchFilter_refine Hl (matchFilter_refine Hk
        (List.Sublist.refl _)))))))))

/-! ### C4: the `is_active` invariant -/

/-- C4: for every job posting, `is_active` is true iff its status is open, its
application deadline is absent or not in the past, and its vacancy count is
positive (`JobOpening.is_active`, `models.py` 214-222). -/
theorem C4_theorem (j : JobOpening) (now : Int) :
    j.is_active now = true ↔
      (j.status = "open" ∧ (∀ d, j.application_deadline = some d → now ≤ d) ∧
        0 < j.vacancy_count) := by
  unfold JobOpening.is_active
  rcases hd : j.application_deadline with _ | d <;>
    by_cases hs : j.status = "open" <;>
      simp [hs, hd] <;> omega

/-- C4 witness: the sample open posting with no deadline and one vacancy is
active. -/
theorem C4_witness : sampleJob.is_active 5 = true :=
  (C4_theorem sampleJob 5).mpr ⟨rfl, by simp [sampleJob], by decide⟩

/-! ### C1: status transitions and the event log -/

/-- C1 counterexample: transitioning the stored application via the model's
`update_status` appends no `status_change` event-log entry at all — not the
exactly-one entry the claim requires. -/
theorem C1_counterexample :
    ¬ ((storeOneApp.update_status 1 "reviewed" "phone call done" 5).countStatusChange 1 =
        storeOneApp.countStatusChange 1 + 1) := by decide

/-- C1 amended: `update_status` rewrites the status, notes and
`status_changed_at` of the targeted application but leaves the event log
untouched; the admin bulk actions rewrite only the status column, leaving
both `status_changed_at` and the event log untouched. -/
theorem C1_theorem (s : Store) (i : Nat) (st notes : String) (now : Int)
    (sel : List Nat) :
    ((s.update_status i st notes now).event_logs = s.event_logs ∧
      ∀ a ∈ s.applications, a.id = i →
        { a with status := st, status_notes := notes, status_changed_at := now }
          ∈ (s.update_status i st notes now).applications) ∧
    ((s.mark_as_shortlisted sel).event_logs = s.event_logs ∧
      ∀ a ∈ s.applications, sel.contains a.id = true →
        { a with status := "shortlisted" } ∈ (s.mark_as_shortlisted sel).applications) ∧
    ((s.mark_as_rejected sel).event_logs = s.event_logs ∧
      ∀ a ∈ s.applications, sel.contains a.id = true →
        { a with status := "rejected" } ∈ (s.mark_as_rejected sel).applications) := by
  refine ⟨⟨rfl, ?_⟩, ⟨rfl, ?_⟩, ⟨rfl, ?_⟩⟩
  · intro a ha hid
    exact List.mem_map.mpr ⟨a, ha, by simp [hid, JobApplication.update_status]⟩
  · intro a ha hid
    exact List.mem_map.mpr ⟨a, ha, if_pos hid⟩
  · intro a ha hid
    exact List.mem_map.mpr ⟨a, ha, if_pos hid⟩

/-- C1 witness: concrete instance of the amended claim on the one-application
store. -/
theorem C1_witness :
    (⟨1, 1, "a@x.com", "reviewed", "note", 5, 0⟩ : JobApplication)
        ∈ (storeOneApp.update_status 1 "reviewed" "note" 5).applications ∧
    (storeOneApp.mark_as_shortlisted [1]).event_logs = storeOneApp.event_logs := by
  have h := C1_theorem storeOneApp 1 "reviewed" "note" 5 [1]
  exact ⟨h.1.2 ⟨1, 1, "a@x.com", "applied", "", 0, 0⟩ (by decide) rfl, h.2.1.1⟩

/-! ### C2: the duplicate-application guard -/

/-- C2 code evaluation: with an application from `a@x.com` already stored for
job 1, a second full-form submission with the same email is not rejected at
validation time — the form's duplicate guard sees no job on the unsaved form
instance and accepts the email, so the submission dies at the store's unique
constraint as an uncaught server error; and a quick-apply submission with the
case-variant `A@X.com` is accepted outright and persists a second application
for the same case-insensitive (email, job) pair. -/
theorem C2_theorem :
    jobApplicationCreateView [sampleJob] storeOneApp 1 "a@x.com" 5 =
      .serverError storeOneApp ∧
    AdvancedForm_clean_email none storeOneApp.applications "a@x.com" =
      .ok "a@x.com" ∧
    quickApplyView [sampleJob] storeOneApp 1 "A@X.com" 5 =
      .success ⟨[⟨1, 1, "a@x.com", "applied", "", 0, 0⟩,
                 ⟨2, 1, "A@X.com", "applied", "", 5, 5⟩], [], 3, 1⟩ 2 ∧
    ((⟨[⟨1, 1, "a@x.com", "applied", "", 0, 0⟩,
        ⟨2, 1, "A@X.com", "applied", "", 5, 5⟩], [], 3, 1⟩ : Store).applications.filter
      (fun a => a.job == 1 && pyLower a.email == "a@x.com")).length = 2 :=
  ⟨rfl, rfl, rfl, rfl⟩

/-! ### C3: intake preconditions -/

/-- C3 counterexample: a quick apply against an open posting whose deadline
has passed and whose vacancy count is zero is accepted and persisted, not
rejected. -/
theorem C3_counterexample :
    expiredOpenJob.application_deadline = some 1 ∧ (1 : Int) < 5 ∧
    expiredOpenJob.vacancy_count = 0 ∧
    quickApplyView [expiredOpenJob] emptyStore 7 "x@y.com" 5 =
      .success ⟨[⟨1, 7, "x@y.com", "applied", "", 5, 5⟩], [], 2, 1⟩ 1 :=
  ⟨rfl, by decide, rfl, rfl⟩

/-- C3 amended: the full-form path enforces all four intake preconditions
before any persistence — its dispatch succeeds iff the posting is found open,
any publish timestamp is not in the future, any deadline has not passed, and
the vacancy count is positive, and a failed dispatch persists nothing — while
the quick-apply path checks only that the posting exists with status open and
then persists the application regardless of publish date, deadline or
vacancies. -/
theorem C3_theorem :
    (∀ (jobs : List JobOpening) (jobId : Nat) (now : Int) (j : JobOpening),
      createViewDispatch jobs jobId now = .ok j ↔
        (jobs.find? (fun x => x.id == jobId && x.status == "open") = some j ∧
          (∀ p, j.published_date = some p → p ≤ now) ∧
          (∀ d, j.application_deadline = some d → now ≤ d) ∧
          0 < j.vacancy_count)) ∧
    (∀ (jobs : List JobOpening) (s : Store) (jobId : Nat) (email : String)
        (now : Int) (r : IntakeReject),
      createViewDispatch jobs jobId now = .error r →
        jobApplicationCreateView jobs s jobId email now = .rejected r s) ∧
    (∀ (jobs : List JobOpening) (s : Store) (jobId : Nat) (email : String)
        (now : Int) (j : JobOpening),
      jobs.find? (fun x => x.id == jobId && x.status == "open") = some j →
      s.applications.any (fun a => a.job == j.id && a.email == email) = false →
        quickApplyView jobs s jobId email now =
          .success { s with
                       applications := s.applications ++
                         [⟨s.next_app_id, j.id, email, "applied", "", now, now⟩],
                       next_app_id := s.next_app_id + 1 } s.next_app_id) := by
  refine ⟨?_, ?_, ?_⟩
  · intro jobs jobId now j
    unfold createViewDispatch
    cases hf : jobs.find? (fun x => x.id == jobId && x.status == "open") with
    | none => simp
    | some job =>
        dsimp only
        constructor
        · intro h
          by_cases h1 :
              (match job.published_date with
               | some p => decide (now < p)
               | none => false) = true
          · rw [if_pos h1] at h
            exact absurd h (by simp)
          · rw [if_neg h1] at h
            by_cases h2 :
                (match job.application_deadline with
                 | some d => decide (d < now)
                 | none => false) = true
            · rw [if_pos h2] at h
              exact absurd h (by simp)
            · rw [if_neg h2] at h
              by_cases h3 : job.vacancy_count ≤ 0
              · rw [if_pos h3] at h
                exact absurd h (by simp)
              · rw [if_neg h3] at h
                injection h with h
                subst h
                refine ⟨rfl, ?_, ?_, by omega⟩
                · intro p hp
                  rw [hp] at h1
                  simp at h1
                  omega
                · intro d hd
                  rw [hd] at h2
                  simp at h2
                  omega
        · rintro ⟨hj, hP, hQ, hR⟩
          injection hj with hj
          subst hj
          have h1 :
              (match job.published_date with
               | some p => decide (now < p)
               | none => false) = false := by
            rcases hp : job.published_date with _ | p
            · rfl
            · have := hP p hp
              simp
              omega
          have h2 :
              (match job.application_deadline with
               | some d => decide (d < now)
               | none => false) = false := by
            rcases hd : job.application_deadline with _ | d
            · rfl
            · have := hQ d hd
              simp
              omega
          rw [if_neg (by simp [h1]), if_neg (by simp [h2]),
            if_neg (by omega : ¬ job.vacancy_count ≤ 0)]
  · intro jobs s jobId email now r h
    unfold jobApplicationCreateView
    rw [h]
  · intro jobs s jobId email now j hf hany
    unfold quickApplyView
    rw [hf]
    dsimp only
    rw [hany]
    simp

/-- C3 witness: concrete instance of the amended claim — dispatch rejects the
expired posting, and quick apply persists against it anyway. -/
theorem C3_witness :
    jobApplicationCreateView [expiredOpenJob] emptyStore 7 "x@y.com" 5 =
      .rejected .deadlinePassed emptyStore ∧
    quickApplyView [expiredOpenJob] emptyStore 7 "x@y.com" 5 =
      .success { emptyStore with
                   applications := emptyStore.applications ++
                     [⟨emptyStore.next_app_id, expiredOpenJob.id, "x@y.com",
                       "applied", "", 5, 5⟩],
                   next_app_id := emptyStore.next_app_id + 1 }
        emptyStore.next_app_id := by
  constructor
  · exact C3_theorem.2.1 [expiredOpenJob] emptyStore 7 "x@y.com" 5
      .deadlinePassed rfl
  · exact C3_theorem.2.2 [expiredOpenJob] emptyStore 7 "x@y.com" 5
      expiredOpenJob rfl rfl

/-! ### C5: empty-filter search results and monotonic narrowing -/

/-- C5 counterexample: an open posting with no publish timestamp is in the
result the claim describes ("published timestamp absent or not after now")
but is excluded by the view's queryset, whose `published_date__lte=now`
lookup drops NULL publish timestamps. -/
theorem C5_counterexample :
    specEmptyFilterResult 5 [unpublishedOpenJob] = [unpublishedOpenJob] ∧
    filterJobs 5 emptyFilters [unpublishedOpenJob] = [] :=
  ⟨rfl, rfl⟩

/-- C5 amended: a search with an empty filter set returns exactly the
postings with status open and a publish timestamp that is present and not
after now (postings with no publish timestamp are excluded), in newest-first
order by creation timestamp; and adding any single filter predicate yields a
subset of the result without it. -/
theorem C5_theorem :
    (∀ (now : Int) (jobs : List JobOpening),
      filterJobs now emptyFilters jobs = jobs.filter (baseVisible now)) ∧
    (∀ (now : Int) (jobs : List JobOpening),
      (searchNewest now emptyFilters jobs).Perm (jobs.filter (baseVisible now)) ∧
      (searchNewest now emptyFilters jobs).Pairwise
        (fun a b => b.created_at ≤ a.created_at)) ∧
    (∀ (f f2 : Filters), AddsOnePredicate f f2 →
      ∀ (now : Int) (jobs : List JobOpening) (x : JobOpening),
        x ∈ filterJobs now f2 jobs → x ∈ filterJobs now f jobs) := by
  have hempty : ∀ (now : Int) (jobs : List JobOpening),
      filterJobs now emptyFilters jobs = jobs.filter (baseVisible now) := by
    intro now jobs
    rfl
  have htrans : ∀ (a b c : JobOpening),
      newestLe a b → newestLe b c → newestLe a c := by
    intro a b c hab hbc
    simp only [newestLe, decide_eq_true_eq] at *
    omega
  have htotal : ∀ (a b : JobOpening), newestLe a b || newestLe b a := by
    intro a b
    simp only [newestLe]
    by_cases h : b.created_at ≤ a.created_at
    · simp [h]
    · simp [h]
      omega
  refine ⟨hempty, ?_, ?_⟩
  · intro now jobs
    constructor
    · have := List.mergeSort_perm (filterJobs now emptyFilters jobs) newestLe
      rw [hempty now jobs] at this
      exact this
    · have hs := List.sorted_mergeSort htrans htotal
        (filterJobs now emptyFilters jobs)
      exact hs.imp (fun h => by
        simpa [newestLe, decide_eq_true_eq] using h)
  · intro f f2 hadd now jobs x hx
    have hsub : List.Sublist (filterJobs now f2 jobs) (filterJobs now f jobs) := by
      rcases hadd with ⟨k, hun, rfl⟩ | ⟨loc, hun, rfl⟩ | ⟨ts, hun, rfl⟩ |
        ⟨es, hun, rfl⟩ | ⟨cs, hun, rfl⟩ | ⟨r, hun, rfl⟩ | ⟨d, hun, rfl⟩ |
        ⟨hun, rfl⟩ | ⟨hun, rfl⟩
      all_goals refine filterJobs_refines now f _ ?_ ?_ ?_ ?_ ?_ ?_ ?_ ?_ ?_ jobs
      all_goals first
        | exact Or.inl rfl
        | exact Or.inr hun
    exact hsub.subset hx

/-- C5 witness: adding the remote-only predicate to the empty filter set on a
concrete store keeps the remote posting, which by the theorem is also in the
unfiltered result. -/
theorem C5_witness :
    ({ sampleJob with is_remote_allowed := true } : JobOpening)
      ∈ filterJobs 5 emptyFilters
          [{ sampleJob with is_remote_allowed := true }, sampleJob] :=
  C5_theorem.2.2 emptyFilters { emptyFilters with remote_only := true }
    (Or.inr (Or.inr (Or.inr (Or.inr (Or.inr (Or.inr (Or.inr (Or.inl
      ⟨rfl, rfl⟩))))))))
    5 [{ sampleJob with is_remote_allowed := true }, sampleJob]
    { sampleJob with is_remote_allowed := true } (by decide)

/-! ### C6: pagination and ordering stability -/

/-- C6 counterexample: two distinct postings carry identical ORDER BY key
tuples under the default sort — the engine orders by `-created_at` alone, so
no secondary stable key separates them. -/
theorem C6_counterexample :
    keyTuple "newest" "" jobAlpha = keyTuple "newest" "" jobBeta ∧
    jobAlpha ≠ jobBeta := by
  refine ⟨by decide, by decide⟩

/-- C6 amended: the listing is paginated with fixed page size 12, and each
sort key resolves to exactly its listed primary fields — with no secondary
tiebreaker, so distinct postings that agree on those fields receive no fixed
relative order. -/
theorem C6_theorem :
    JobListView_paginate_by = 12 ∧
    orderByArgs "newest" "" = ["-created_at"] ∧
    orderByArgs "salary_high" "" = ["-salary_range_max", "-salary_range_min"] ∧
    orderByArgs "salary_low" "" = ["salary_range_min", "salary_range_max"] ∧
    orderByArgs "deadline" "" = ["application_deadline"] ∧
    orderByArgs "relevance" "engineer" = ["-relevance", "-created_at"] ∧
    orderByArgs "unknown" "" = ["-created_at"] ∧
    ∃ a b : JobOpening, a ≠ b ∧ keyTuple "newest" "" a = keyTuple "newest" "" b := by
  refine ⟨rfl, by decide, by decide, by decide, by decide, by decide, by decide,
    jobAlpha, jobBeta, by decide, by decide⟩

/-! ### C7: the webhook challenge handshake -/

/-- C7 counterexample: the Indeed webhook is `require_POST`-decorated, so a
verification GET carrying `challenge=abc123` is answered 405, not 200 with
the echoed challenge. -/
theorem C7_counterexample :
    (indeed_webhook .GET (some "abc123") none .empty emptyStore 0).fst =
      ⟨405, ""⟩ ∧
    (indeed_webhook .GET (some "abc123") none .empty emptyStore 0).fst ≠
      ⟨200, "abc123"⟩ := by
  refine ⟨rfl, by decide⟩

/-- C7 amended: the LinkedIn and calendar webhooks echo a non-empty
`challenge`/`hub.challenge` value verbatim with HTTP 200 (`challenge` taking
precedence); the Indeed webhook accepts only POST and answers every GET with
HTTP 405 and no state change. -/
theorem C7_theorem (challenge hub : Option String)
    (h : pyTruthy (pyOr challenge hub) = true) :
    linkedin_webhook_GET challenge hub = ⟨200, (pyOr challenge hub).getD ""⟩ ∧
    calendar_webhook_GET challenge hub = ⟨200, (pyOr challenge hub).getD ""⟩ ∧
    ∀ (body : ParsedBody) (s : Store) (now : Int),
      indeed_webhook .GET challenge hub body s now = (⟨405, ""⟩, s) := by
  refine ⟨?_, ?_, fun body s now => rfl⟩
  · simp [linkedin_webhook_GET, h]
  · simp [calendar_webhook_GET, h]

/-- C7 witness: concrete handshake on the two echoing endpoints. -/
theorem C7_witness :
    linkedin_webhook_GET (some "abc123") none = ⟨200, "abc123"⟩ ∧
    calendar_webhook_GET (some "abc123") none = ⟨200, "abc123"⟩ := by
  have h := C7_theorem (some "abc123") none (by decide)
  exact ⟨h.1, h.2.1⟩

/-! ### C8: malformed webhook JSON -/

/-- C8 counterexample: a LinkedIn webhook POST whose body is not valid JSON
is not rejected — the handler falls back to an empty payload and answers
HTTP 200. -/
theorem C8_counterexample :
    (linkedin_webhook_POST LINKEDIN_WEBHOOK_SECRET none false .malformed
      emptyStore 5).fst = ⟨200, "Received"⟩ :=
  rfl

/-- C8 amended: the Indeed and calendar webhooks reject a POST whose body is
not valid JSON with HTTP 400 and persist nothing; the LinkedIn webhook (its
secret is unset in the shipped settings) treats an unparseable body as an
empty payload and answers HTTP 200; it also persists nothing, because its
event-log append names no owning application, violates the event log's
required application reference, and the failure is swallowed. -/
theorem C8_theorem (s : Store) (now : Int) (sig : Option String) (sm : Bool) :
    indeed_webhook .POST none none .malformed s now =
      (⟨400, "Invalid JSON"⟩, s) ∧
    calendar_webhook_POST .malformed s now = (⟨400, "Invalid JSON"⟩, s) ∧
    linkedin_webhook_POST LINKEDIN_WEBHOOK_SECRET sig sm .malformed s now =
      (⟨200, "Received"⟩, s) :=
  ⟨rfl, rfl, rfl⟩

/-! ### C9: alert-subscription confirmation -/

/-- C9 counterexample: after a successful confirmation, confirming again with
the same token yields a generic HTTP 404 — an error response identical to the
one produced by a token that matches nothing, so it is neither a non-error
no-op nor an explicit already-confirmed rejection. -/
theorem C9_counterexample :
    (confirm_alert_subscription
      (confirm_alert_subscription subsOne 7).snd 7).fst = ⟨404, ""⟩ ∧
    confirm_alert_subscription (confirm_alert_subscription subsOne 7).snd 7 =
      confirm_alert_subscription (confirm_alert_subscription subsOne 7).snd 99 := by
  refine ⟨rfl, by decide⟩

/-- C9 amended: confirming with a valid unused token flips `is_confirmed` to
true exactly once and irreversibly (the success response is the redirect),
and confirming again with the same token is rejected with a generic HTTP 404
while leaving the subscription list unchanged. -/
theorem C9_theorem (subs : List JobAlertSubscription) (tok : Nat)
    (s : JobAlertSubscription)
    (hfind : subs.find?
      (fun t => t.confirmation_token == tok && t.is_confirmed == false) = some s)
    (huniq : ∀ t ∈ subs, t.confirmation_token = tok → t = s) :
    (confirm_alert_subscription subs tok).fst.status = 302 ∧
    { s with is_confirmed := true } ∈ (confirm_alert_subscription subs tok).snd ∧
    (confirm_alert_subscription (confirm_alert_subscription subs tok).snd tok).fst.status = 404 ∧
    (confirm_alert_subscription (confirm_alert_subscription subs tok).snd tok).snd =
      (confirm_alert_subscription subs tok).snd := by
  have hmem : s ∈ subs := List.mem_of_find?_eq_some hfind
  have h1 : confirm_alert_subscription subs tok =
      (⟨302, ""⟩, subs.map (fun t =>
        if t.id == s.id then { t with is_confirmed := true } else t)) := by
    unfold confirm_alert_subscription
    rw [hfind]
  have hnone : (subs.map (fun t =>
      if t.id == s.id then { t with is_confirmed := true } else t)).find?
      (fun t => t.confirmation_token == tok && t.is_confirmed == false) = none := by
    rw [List.find?_eq_none]
    intro x hx
    obtain ⟨t, ht, rfl⟩ := List.mem_map.mp hx
    by_cases hid : t.id == s.id
    · rw [if_pos hid]
      simp
    · rw [if_neg hid]
      intro hcontra
      simp only [Bool.and_eq_true, beq_iff_eq] at hcontra
      have := huniq t ht hcontra.1
      subst this
      exact hid (by simp)
  have h2 : confirm_alert_subscription (subs.map (fun t =>
      if t.id == s.id then { t with is_confirmed := true } else t)) tok =
      (⟨404, ""⟩, subs.map (fun t =>
        if t.id == s.id then { t with is_confirmed := true } else t)) := by
    unfold confirm_alert_subscription
    rw [hnone]
  rw [h1]
  refine ⟨rfl, ?_, ?_, ?_⟩
  · exact List.mem_map.mpr ⟨s, hmem, by simp⟩
  · rw [h2]
  · rw [h2]

/-- C9 witness: concrete run of the amended claim on the one-subscription
store. -/
theorem C9_witness :
    (confirm_alert_subscription subsOne 7).fst.status = 302 ∧
    (confirm_alert_subscription (confirm_alert_subscription subsOne 7).snd 7).fst.status = 404 := by
  have h := C9_theorem subsOne 7 ⟨1, "a@x.com", false, 7, true⟩ rfl (by decide)
  exact ⟨h.1, h.2.2.1⟩

/-! ### C10: the LinkedIn webhook without a signature header -/

/-- C10 code evaluation: a POST carrying no signature header is answered
HTTP 200 with no verification even when a secret is configured and the HMAC
comparison would fail (`sigMatches = false` is never consulted), but no
event-log row is persisted: the append carries no owning application, the
non-nullable `application` column rejects the insert, and the failure is
swallowed, leaving the store unchanged. -/
theorem C10_theorem :
    linkedin_webhook_POST (some "topsecret") none false (.json ["event"])
      emptyStore 5 = (⟨200, "Received"⟩, emptyStore) ∧
    createEventLog emptyStore none "linkedin_webhook"
      "LinkedIn webhook received: keys=event" 5 = .error () ∧
    (linkedin_webhook_POST (some "topsecret") none false (.json ["event"])
      emptyStore 5).snd.event_logs.length = 0 :=
  ⟨rfl, rfl, rfl⟩
